import Mathlib

/-!
Shallow embedding of `src/facebook.py` (class `FacebookLoginTester`).

The embedded core is:
* the HTTP session configuration built by `setup_session` (lines 32-56):
  the urllib3 retry strategy, the mounted schemes and the redirect cap;
* the per-attempt classification performed by `attempt_login`
  (lines 93-137): one POST to the login endpoint, whose outcome is either
  a `requests.RequestException` (caught at lines 135-137, returning
  `False`) or a completed response classified by the URL/body substring
  checks at lines 120-133 into `True` / `False`;
* the sweep loop of `test_credentials` (lines 156-177): an `attempts`
  counter incremented per candidate, a budget check
  `if max_attempts and attempts > max_attempts: break` executed before
  the attempt, and an early `return password` on the first attempt that
  returns `True`; falling off the loop returns `None`.

The network is modelled by an environment `env : String → HttpOutcome`
giving, for each candidate password, the outcome of the login POST for
that candidate (the mocked-response model of the spec's testable
properties).  File reading, logging, delays and the interactive CLI are
external collaborators and are not part of the embedded core; the
`passwords` list stands for the stripped non-empty lines of the wordlist.
The embedding additionally records, in `SweepResult`, the list of
candidates actually passed to `attempt_login` (`tried`) and the HTTP
requests issued (`requests`), so that ordering and network-traffic
properties can be stated.
-/

/-- Auxiliary scan for substring containment: `containsAux needle hay`
is `true` iff `needle` occurs as a contiguous sublist of `hay`. -/
def containsAux (needle : List Char) : List Char → Bool
  | [] => needle.isEmpty
  | c :: t => needle.isPrefixOf (c :: t) || containsAux needle t

/-- Python's `needle in hay` substring containment test on strings. -/
def strContains (hay needle : String) : Bool :=
  containsAux needle.toList hay.toList

/-- Python's `str.lower()` as used at line 130 of `src/facebook.py`,
modelled on the ASCII range (where Python's and Lean's per-character
lowercasing agree; the marker searched for, `"news feed"`, is ASCII). -/
def pyLower (s : String) : String :=
  String.mk (s.toList.map Char.toLower)

/-- The response classification of `attempt_login`, lines 120-133 of
`src/facebook.py`, applied to the final URL and body text of the
completed login POST.  The source returns a `bool`:
`False` for a URL containing `login_error` or `checkpoint` (lines
122-123), `True` for a post-authentication landing URL (lines 126-127),
`True` for a body containing the welcome banner or, case-insensitively,
the feed marker (lines 130-131), and `False` otherwise (line 133). -/
def classify (url body : String) : Bool :=
  if strContains url "login_error" || strContains url "checkpoint" then
    false
  else if strContains url "facebook.com/home" ||
      strContains url "facebook.com/?sk=welcome" then
    true
  else if strContains body "Welcome to Facebook" ||
      strContains (pyLower body) "news feed" then
    true
  else
    false

/-- The spec's four-way attempt classification (data model, §3):
`Success`, `Blocked`, `Failure`, `TransportError(cause)`. -/
inductive AttemptResult : Type
  | Success : AttemptResult
  | Blocked : AttemptResult
  | Failure : AttemptResult
  | TransportError : AttemptResult
deriving DecidableEq

/-- Spec-side classifier, written from the spec's words (§4.2): pure
function `classify(finalUrl, bodyText)`, first match wins —
(1) login-error or checkpoint marker in the URL gives `Blocked`;
(2) else a post-authentication landing URL gives `Success`;
(3) else an authenticated-session body marker (welcome banner, feed
marker — the latter case-insensitive) gives `Success`;
(4) else `Failure`.  Used only to compare against the source's
two-valued `classify`. -/
def classifyAttemptResultSpec (url body : String) : AttemptResult :=
  if strContains url "login_error" || strContains url "checkpoint" then
    AttemptResult.Blocked
  else if strContains url "facebook.com/home" ||
      strContains url "facebook.com/?sk=welcome" then
    AttemptResult.Success
  else if strContains body "Welcome to Facebook" ||
      strContains (pyLower body) "news feed" then
    AttemptResult.Success
  else
    AttemptResult.Failure

/-- Outcome of the login POST of one attempt, as seen by the
`try/except` of `attempt_login`: either a `requests.RequestException`
(connection error, timeout, transport-level failure after the session's
retries are exhausted — caught at lines 135-137), or a completed
response with its final URL and body text. -/
inductive HttpOutcome : Type
  | transportError : HttpOutcome
  | completed (finalUrl : String) (bodyText : String) : HttpOutcome
deriving DecidableEq

/-- Return value of `attempt_login` (lines 93-137 of `src/facebook.py`)
as a function of the outcome of its single login POST: a caught
`RequestException` returns `False` (lines 135-137); a completed
response is classified by `classify` (lines 120-133). -/
def attempt_login (outcome : HttpOutcome) : Bool :=
  match outcome with
  | HttpOutcome.transportError => false
  | HttpOutcome.completed url body => classify url body

/-- The boolean result of the attempt for candidate `p` under network
environment `env`. -/
def okOf (env : String → HttpOutcome) (p : String) : Bool :=
  attempt_login (env p)

/-- An HTTP request issued through the session: the GET of
`get_login_page` (line 74) or the login POST of `attempt_login`
(lines 112-118), the latter carrying the credentials placed in
`login_data` (lines 99-108). -/
inductive HttpRequest : Type
  | get (url : String) : HttpRequest
  | post (url : String) (email : String) (password : String) : HttpRequest
deriving DecidableEq

/-- The login POST endpoint, line 111 of `src/facebook.py`. -/
def login_url : String := "https://www.facebook.com/login.php?login_attempt=1"

/-- The URL fetched by `get_login_page`, line 73 of `src/facebook.py`. -/
def login_page_url : String := "https://www.facebook.com/login.php"

/-- Result of a sweep, enriched with observation traces:
`found` is the return value of `test_credentials` (the found password,
or `None`); `attempts` is the final value of the `attempts` counter;
`tried` lists the candidates actually passed to `attempt_login`, in
order; `requests` lists the HTTP requests issued, in order. -/
structure SweepResult : Type where
  found : Option String
  attempts : Nat
  tried : List String
  requests : List HttpRequest
deriving DecidableEq

/-- The loop of `test_credentials`, lines 156-177 of `src/facebook.py`,
from a given value of the `attempts` counter:
for each candidate, the counter is incremented (line 158), then
`if max_attempts and attempts > max_attempts: break` (lines 159-161;
Python truthiness makes `max_attempts = 0` skip the check), then
`attempt_login` is invoked and a `True` result returns the password
(lines 165-169); when the list is exhausted the function returns
`None` (line 177). -/
def sweepLoop (env : String → HttpOutcome) (email : String)
    (max_attempts : Int) : List String → Nat → SweepResult
  | [], attempts =>
    { found := none, attempts := attempts, tried := [], requests := [] }
  | password :: rest, attempts =>
    if max_attempts ≠ 0 ∧ ((attempts : Int) + 1 > max_attempts) then
      { found := none, attempts := attempts + 1, tried := [], requests := [] }
    else if attempt_login (env password) then
      { found := some password, attempts := attempts + 1,
        tried := [password],
        requests := [HttpRequest.post login_url email password] }
    else
      { found := (sweepLoop env email max_attempts rest (attempts + 1)).found,
        attempts := (sweepLoop env email max_attempts rest (attempts + 1)).attempts,
        tried := password :: (sweepLoop env email max_attempts rest (attempts + 1)).tried,
        requests := HttpRequest.post login_url email password ::
          (sweepLoop env email max_attempts rest (attempts + 1)).requests }

/-- `test_credentials` (lines 139-177 of `src/facebook.py`) restricted
to its core: the wordlist has already been read and stripped into
`passwords` by the external collaborator; the sweep starts with
`attempts = 0` (line 156). -/
def test_credentials (env : String → HttpOutcome) (email : String)
    (passwords : List String) (max_attempts : Int) : SweepResult :=
  sweepLoop env email max_attempts passwords 0

/-- The urllib3 `Retry` configuration constructed at lines 35-39 of
`src/facebook.py`.  `connect` and `read` are not set in the source, so
they keep urllib3's default `None`, meaning those failure kinds fall
back to the `total` bound — low-level transport failures are retried. -/
structure RetryConfig : Type where
  total : Nat
  backoff_factor : Nat
  status_forcelist : List Nat
  connect : Option Nat
  read : Option Nat
deriving DecidableEq

/-- `retry_strategy`, lines 35-39 of `src/facebook.py`. -/
def retry_strategy : RetryConfig :=
  { total := 3
    backoff_factor := 1
    status_forcelist := [429, 500, 502, 503, 504]
    connect := none
    read := none }

/-- The session state configured by `setup_session`, lines 32-56:
the retry adapter is mounted on both schemes (lines 40-42) and
`session.max_redirects` is set to `1` (line 56). -/
structure SessionConfig : Type where
  retry : RetryConfig
  mounted_schemes : List String
  max_redirects : Nat
deriving DecidableEq

/-- The configuration produced by `setup_session` (header values are
omitted: no claim concerns them). -/
def session_config : SessionConfig :=
  { retry := retry_strategy
    mounted_schemes := ["https://", "http://"]
    max_redirects := 1 }

/-- The `allow_redirects=True` argument of the login POST, line 115 of
`src/facebook.py`: redirects are followed, bounded by
`session.max_redirects`. -/
def attempt_login_allow_redirects : Bool := true

/-- Sleep time before the n-th retry under urllib3's documented backoff
rule, `backoff_factor * 2^(n-1)`, with the factor set at line 37 of
`src/facebook.py`: exponential backoff. -/
def backoff_time (retryNumber : Nat) : Nat :=
  retry_strategy.backoff_factor * 2 ^ (retryNumber - 1)

/-- A final URL carrying no marker at all: the login page echoed back
on wrong credentials.  Classified `False` (credentials rejected). -/
def failUrl : String := "https://www.facebook.com/login.php?login_attempt=1"

/-- A post-authentication landing URL, matching the check of line 126. -/
def successUrl : String := "https://www.facebook.com/home.php"

/-- Environment in which every candidate's POST completes with a
marker-free response: every attempt is classified `False`. -/
def envAllFail : String → HttpOutcome :=
  fun _ => HttpOutcome.completed failUrl ""

/-- Environment for the ordering scenario: only candidate `"p3"`
completes on the post-authentication landing URL. -/
def envOrder : String → HttpOutcome := fun p =>
  if p = "p3" then HttpOutcome.completed successUrl ""
  else HttpOutcome.completed failUrl ""

/-- Environment for the transport-resilience scenario: candidates
`"a"` and `"b"` hit a transport error, `"c"` completes with a rejected
response, `"d"` completes on the landing URL. -/
def envTransport : String → HttpOutcome := fun p =>
  if p = "a" then HttpOutcome.transportError
  else if p = "b" then HttpOutcome.transportError
  else if p = "d" then HttpOutcome.completed successUrl ""
  else HttpOutcome.completed failUrl ""

/-- Unfolding lemma: empty candidate list. -/
theorem sweepLoop_nil (env : String → HttpOutcome) (email : String)
    (k : Int) (a : Nat) :
    sweepLoop env email k [] a =
      { found := none, attempts := a, tried := [], requests := [] } := rfl

/-- Unfolding lemma: the budget check fires (lines 159-161), the loop
breaks before invoking `attempt_login`. -/
theorem sweepLoop_cons_break (env : String → HttpOutcome) (email : String)
    (k : Int) (p : String) (rest : List String) (a : Nat)
    (h : k ≠ 0 ∧ ((a : Int) + 1 > k)) :
    sweepLoop env email k (p :: rest) a =
      { found := none, attempts := a + 1, tried := [], requests := [] } := by
  simp [sweepLoop, h]

/-- Unfolding lemma: within budget and the attempt returns `True`, the
sweep returns the password (lines 165-169). -/
theorem sweepLoop_cons_success (env : String → HttpOutcome) (email : String)
    (k : Int) (p : String) (rest : List String) (a : Nat)
    (h : ¬(k ≠ 0 ∧ ((a : Int) + 1 > k)))
    (hp : attempt_login (env p) = true) :
    sweepLoop env email k (p :: rest) a =
      { found := some p, attempts := a + 1, tried := [p],
        requests := [HttpRequest.post login_url email p] } := by
  simp [sweepLoop, h, hp]

/-- Unfolding lemma: within budget and the attempt returns `False`, the
loop continues with the next candidate. -/
theorem sweepLoop_cons_fail (env : String → HttpOutcome) (email : String)
    (k : Int) (p : String) (rest : List String) (a : Nat)
    (h : ¬(k ≠ 0 ∧ ((a : Int) + 1 > k)))
    (hp : attempt_login (env p) = false) :
    sweepLoop env email k (p :: rest) a =
      { found := (sweepLoop env email k rest (a + 1)).found,
        attempts := (sweepLoop env email k rest (a + 1)).attempts,
        tried := p :: (sweepLoop env email k rest (a + 1)).tried,
        requests := HttpRequest.post login_url email p ::
          (sweepLoop env email k rest (a + 1)).requests } := by
  simp [sweepLoop, h, hp]

/-- Every issued request is the login POST of the corresponding tried
candidate, in order: one POST per attempt, no GET. -/
theorem sweepLoop_requests (env : String → HttpOutcome) (email : String)
    (k : Int) (ps : List String) :
    ∀ a : Nat,
      (sweepLoop env email k ps a).requests =
        (sweepLoop env email k ps a).tried.map
          (fun p => HttpRequest.post login_url email p) := by
  induction ps with
  | nil => intro a; simp [sweepLoop_nil]
  | cons p rest ih =>
    intro a
    by_cases hb : k ≠ 0 ∧ ((a : Int) + 1 > k)
    · simp [sweepLoop_cons_break env email k p rest a hb]
    · by_cases hp : attempt_login (env p) = true
      · simp [sweepLoop_cons_success env email k p rest a hb hp]
      · rw [sweepLoop_cons_fail env email k p rest a hb
          (Bool.not_eq_true _ ▸ hp)]
        simp [ih (a + 1)]

/-- The tried candidates form a prefix of the candidate list: the sweep
consumes the list strictly in order, never skipping or reordering. -/
theorem sweepLoop_tried_take (env : String → HttpOutcome) (email : String)
    (k : Int) (ps : List String) :
    ∀ a : Nat,
      (sweepLoop env email k ps a).tried =
        ps.take (sweepLoop env email k ps a).tried.length := by
  induction ps with
  | nil => intro a; simp [sweepLoop_nil]
  | cons p rest ih =>
    intro a
    by_cases hb : k ≠ 0 ∧ ((a : Int) + 1 > k)
    · simp [sweepLoop_cons_break env email k p rest a hb]
    · by_cases hp : attempt_login (env p) = true
      · simp [sweepLoop_cons_success env email k p rest a hb hp]
      · rw [sweepLoop_cons_fail env email k p rest a hb
          (Bool.not_eq_true _ ▸ hp)]
        simp only [List.length_cons, List.take_succ_cons, List.cons.injEq,
          true_and]
        exact ih (a + 1)

/-- Soundness of a found password: if the sweep returns `some q` then
`q` is the first candidate whose attempt returns `True`, the tried
candidates are exactly the candidates up to and including that first
success, and the final counter equals the starting counter plus the
number of attempts made. -/
theorem sweepLoop_found_spec (env : String → HttpOutcome) (email : String)
    (k : Int) (ps : List String) :
    ∀ (a : Nat) (q : String),
      (sweepLoop env email k ps a).found = some q →
        ps.find? (okOf env) = some q ∧
        (sweepLoop env email k ps a).tried =
          ps.take (ps.findIdx (okOf env) + 1) ∧
        (sweepLoop env email k ps a).attempts =
          a + (sweepLoop env email k ps a).tried.length := by
  induction ps with
  | nil => intro a q h; simp [sweepLoop_nil] at h
  | cons p rest ih =>
    intro a q h
    by_cases hb : k ≠ 0 ∧ ((a : Int) + 1 > k)
    · rw [sweepLoop_cons_break env email k p rest a hb] at h
      simp at h
    · by_cases hp : attempt_login (env p) = true
      · rw [sweepLoop_cons_success env email k p rest a hb hp] at h ⊢
        simp only [Option.some.injEq] at h
        subst h
        simp [List.find?_cons, List.findIdx_cons, okOf, hp]
      · have hp' : attempt_login (env p) = false := Bool.not_eq_true _ ▸ hp
        rw [sweepLoop_cons_fail env email k p rest a hb hp'] at h ⊢
        simp only at h
        obtain ⟨h1, h2, h3⟩ := ih (a + 1) q h
        refine ⟨?_, ?_, ?_⟩
        · simpa [List.find?_cons, okOf, hp'] using h1
        · simp [List.findIdx_cons, okOf, hp', List.take_succ_cons, h2]
        · simp only [List.length_cons]
          omega

/-- Completeness: if some candidate's attempt returns `True` and the
budget does not run out before the first such candidate, the sweep
finds exactly that candidate, having attempted every candidate up to
and including it. -/
theorem sweepLoop_success (env : String → HttpOutcome) (email : String)
    (k : Int) (ps : List String) :
    ∀ (a : Nat) (q : String),
      ps.find? (okOf env) = some q →
      (k = 0 ∨ (a : Int) + (ps.findIdx (okOf env) : Int) + 1 ≤ k) →
        (sweepLoop env email k ps a).found = some q ∧
        (sweepLoop env email k ps a).tried =
          ps.take (ps.findIdx (okOf env) + 1) ∧
        (sweepLoop env email k ps a).attempts =
          a + ps.findIdx (okOf env) + 1 := by
  induction ps with
  | nil => intro a q h; simp at h
  | cons p rest ih =>
    intro a q hfind hbud
    have hnb : ¬(k ≠ 0 ∧ ((a : Int) + 1 > k)) := by
      rcases hbud with h0 | hle
      · simp [h0]
      · intro ⟨_, hgt⟩
        have : (0 : Int) ≤ (rest.findIdx (okOf env) : Int) := Int.ofNat_nonneg _
        omega
    by_cases hp : attempt_login (env p) = true
    · have hq : p = q := by
        simpa [List.find?_cons, okOf, hp] using hfind
      subst hq
      rw [sweepLoop_cons_success env email k p rest a hnb hp]
      simp [List.findIdx_cons, okOf, hp]
    · have hp' : attempt_login (env p) = false := Bool.not_eq_true _ ▸ hp
      rw [sweepLoop_cons_fail env email k p rest a hnb hp']
      have hfind' : rest.find? (okOf env) = some q := by
        simpa [List.find?_cons, okOf, hp'] using hfind
      have hidx : (p :: rest).findIdx (okOf env) =
          rest.findIdx (okOf env) + 1 := by
        simp [List.findIdx_cons, okOf, hp']
      have hbud' : k = 0 ∨
          ((a : Nat) + 1 : Int) + (rest.findIdx (okOf env) : Int) + 1 ≤ k := by
        rcases hbud with h0 | hle
        · exact Or.inl h0
        · right
          rw [hidx] at hle
          push_cast at hle ⊢
          omega
      obtain ⟨h1, h2, h3⟩ := ih (a + 1) q hfind' hbud'
      refine ⟨h1, ?_, ?_⟩
      · simp [hidx, List.take_succ_cons, h2]
      · rw [hidx, h3]; omega

/-- Budget soundness: with a positive budget `k` and a starting counter
at most `k`, the number of attempts made never pushes the counter past
`k`: at most `k - a` candidates are passed to `attempt_login`. -/
theorem sweepLoop_budget (env : String → HttpOutcome) (email : String)
    (k : Int) (ps : List String) :
    ∀ a : Nat, 0 < k → (a : Int) ≤ k →
      ((sweepLoop env email k ps a).tried.length : Int) + a ≤ k := by
  induction ps with
  | nil => intro a _ ha; simp [sweepLoop_nil, ha]
  | cons p rest ih =>
    intro a hk ha
    by_cases hb : k ≠ 0 ∧ ((a : Int) + 1 > k)
    · rw [sweepLoop_cons_break env email k p rest a hb]
      simpa using ha
    · have hle : (a : Int) + 1 ≤ k := by
        rcases not_and_or.mp hb with h0 | hgt
        · omega
        · omega
      by_cases hp : attempt_login (env p) = true
      · rw [sweepLoop_cons_success env email k p rest a hb hp]
        simp only [List.length_cons, List.length_nil]
        push_cast
        omega
      · rw [sweepLoop_cons_fail env email k p rest a hb
          (Bool.not_eq_true _ ▸ hp)]
        have := ih (a + 1) hk (by push_cast; omega)
        simp only [List.length_cons]
        push_cast at this ⊢
        omega

/-- With `max_attempts = 0` the budget check never fires: the sweep
returns the first successful candidate (or `none`), tries exactly the
candidates up to and including the first success (all of them when
there is none), and the counter counts exactly the attempts made. -/
theorem sweepLoop_zero (env : String → HttpOutcome) (email : String)
    (ps : List String) :
    ∀ a : Nat,
      (sweepLoop env email 0 ps a).found = ps.find? (okOf env) ∧
      (sweepLoop env email 0 ps a).tried =
        ps.take (ps.findIdx (okOf env) + 1) ∧
      (sweepLoop env email 0 ps a).attempts =
        a + (sweepLoop env email 0 ps a).tried.length := by
  induction ps with
  | nil => intro a; simp [sweepLoop_nil]
  | cons p rest ih =>
    intro a
    have hb : ¬((0 : Int) ≠ 0 ∧ ((a : Int) + 1 > 0)) := by simp
    by_cases hp : attempt_login (env p) = true
    · rw [sweepLoop_cons_success env email 0 p rest a hb hp]
      simp [List.find?_cons, List.findIdx_cons, okOf, hp]
    · have hp' : attempt_login (env p) = false := Bool.not_eq_true _ ▸ hp
      rw [sweepLoop_cons_fail env email 0 p rest a hb hp']
      obtain ⟨h1, h2, h3⟩ := ih (a + 1)
      refine ⟨?_, ?_, ?_⟩
      · simpa [List.find?_cons, okOf, hp'] using h1
      · simp [List.findIdx_cons, okOf, hp', List.take_succ_cons, h2]
      · simp only [List.length_cons]
        omega

/-- Auxiliary: when no element satisfies the predicate, `findIdx`
equals the length, so `take (findIdx + 1)` is the whole list. -/
theorem findIdx_eq_length_of_find?_none {α : Type} (f : α → Bool) :
    ∀ l : List α, l.find? f = none → l.findIdx f = l.length := by
  intro l
  induction l with
  | nil => intro _; rfl
  | cons x xs ih =>
    intro h
    rw [List.find?_cons] at h
    cases hx : f x with
    | true => rw [hx] at h; exact absurd h (by simp)
    | false =>
      rw [hx] at h
      simp [List.findIdx_cons, hx, ih h]

/-- C1 counterexample: the claim says a transport-level failure of the
login POST is surfaced as a `TransportError` distinct from the
`Failure` classification.  In the code, the `except` clause of
`attempt_login` (lines 135-137) returns `False` — exactly the value
returned for rejected credentials (line 133): at these concrete inputs
the two cases produce the identical result, so the caller cannot
distinguish them. -/
theorem C1_counterexample :
    attempt_login HttpOutcome.transportError =
      attempt_login (HttpOutcome.completed failUrl "") ∧
    attempt_login HttpOutcome.transportError = false := ⟨rfl, rfl⟩

/-- C1 (amended): a network-layer failure of the login POST after
retries are exhausted makes `attempt_login` return `False` — the same
value as the `Failure` classification — so the attempt's return value
does not distinguish "credentials wrong" from "could not reach server"
(the distinction is only logged). -/
theorem C1_transport_as_failure :
    attempt_login HttpOutcome.transportError = false ∧
    ∀ url body : String, classify url body = false →
      attempt_login (HttpOutcome.completed url body) =
        attempt_login HttpOutcome.transportError := by
  refine ⟨rfl, ?_⟩
  intro url body h
  simp [attempt_login, h]

/-- Witness for C1: the rejected-credentials response and the transport
error produce the same attempt result. -/
theorem C1_transport_as_failure_witness :
    attempt_login (HttpOutcome.completed failUrl "") =
      attempt_login HttpOutcome.transportError :=
  C1_transport_as_failure.2 failUrl "" rfl

/-- C2: for every environment, email, candidate list and budget
`k > 0`, the sweep passes at most `k` candidates to `attempt_login`:
the check at lines 159-161 breaks out of the loop before attempting the
pending candidate once `k` attempts have been made. -/
theorem C2_budget_cap (env : String → HttpOutcome) (email : String)
    (ps : List String) (k : Int) (hk : 0 < k) :
    ((test_credentials env email ps k).tried.length : Int) ≤ k := by
  have h := sweepLoop_budget env email k ps 0 hk (by omega)
  simpa [test_credentials] using h

/-- Witness for C2: with budget 1 and two all-failing candidates, at
most one attempt is made. -/
theorem C2_budget_cap_witness :
    ((test_credentials envAllFail "e" ["a", "b"] 1).tried.length : Int) ≤ 1 :=
  C2_budget_cap envAllFail "e" ["a", "b"] 1 (by decide)

/-- C3: candidates are attempted strictly in list order (the tried
candidates are always a prefix of the list); a found password is the
first candidate classified successful; and when the first success is
within budget the sweep returns it, having attempted exactly the
candidates up to and including it — no further attempts even if budget
and candidates remain. -/
theorem C3_order_and_first_success (env : String → HttpOutcome)
    (email : String) (ps : List String) (k : Int) :
    (test_credentials env email ps k).tried =
      ps.take (test_credentials env email ps k).tried.length ∧
    (∀ q : String, (test_credentials env email ps k).found = some q →
      ps.find? (okOf env) = some q) ∧
    (∀ q : String, ps.find? (okOf env) = some q →
      (k = 0 ∨ ((ps.findIdx (okOf env) : Int) + 1 ≤ k)) →
      (test_credentials env email ps k).found = some q ∧
      (test_credentials env email ps k).tried =
        ps.take (ps.findIdx (okOf env) + 1)) := by
  refine ⟨sweepLoop_tried_take env email k ps 0, ?_, ?_⟩
  · intro q h
    exact (sweepLoop_found_spec env email k ps 0 q h).1
  · intro q hfind hbud
    have hbud' : k = 0 ∨
        (((0 : Nat) : Int) + (ps.findIdx (okOf env) : Int) + 1 ≤ k) := by
      rcases hbud with h | h
      · exact Or.inl h
      · right; push_cast; omega
    obtain ⟨h1, h2, _⟩ := sweepLoop_success env email k ps 0 q hfind hbud'
    exact ⟨h1, h2⟩

/-- Witness for C3: with candidates `["p1", "p2", "p3"]` where only
`"p3"` is classified successful, the sweep attempts all three in order
and reports `"p3"`. -/
theorem C3_order_and_first_success_witness :
    (test_credentials envOrder "e" ["p1", "p2", "p3"] 0).found = some "p3" ∧
    (test_credentials envOrder "e" ["p1", "p2", "p3"] 0).tried =
      ["p1", "p2", "p3"] := by
  have h := (C3_order_and_first_success envOrder "e" ["p1", "p2", "p3"] 0).2.2
    "p3" (by rfl) (Or.inl rfl)
  refine ⟨h.1, ?_⟩
  rw [h.2]
  rfl

/-- C4 counterexample: the claim says the sweep's return value
distinguishes `Exhausted` from `BudgetReached`.  `test_credentials`
returns `Optional[str]` (line 177 and line 161 followed by line 177):
the run that exhausts its one-candidate list and the run that hits its
budget with a candidate pending both return `None` — identical values,
so the caller cannot tell the two terminal states apart. -/
theorem C4_counterexample :
    (test_credentials envAllFail "e" ["a"] 0).found =
      (test_credentials envAllFail "e" ["a", "b"] 1).found ∧
    (test_credentials envAllFail "e" ["a"] 0).found = none := ⟨rfl, rfl⟩

/-- C4 (amended): the terminal result of a sweep is two-way, not
three-way — `some password` on the first successful attempt, and `none`
both when the candidate list is consumed without success and when the
attempt budget is hit; `Exhausted` and `BudgetReached` are not
distinguishable from the return value (only from logging). -/
theorem C4_two_way_return (env : String → HttpOutcome) (email : String)
    (ps : List String) (k : Int)
    (h : ∀ p ∈ ps, okOf env p = false) :
    (test_credentials env email ps k).found = none := by
  cases hf : (test_credentials env email ps k).found with
  | none => rfl
  | some q =>
    have h1 := (sweepLoop_found_spec env email k ps 0 q hf).1
    have hq : okOf env q = true := List.find?_some h1
    have hmem : q ∈ ps := List.mem_of_find?_eq_some h1
    rw [h q hmem] at hq
    exact absurd hq (by simp)

/-- Witness for C4: three failing candidates under budget 2 yield
`none`. -/
theorem C4_two_way_return_witness :
    (test_credentials envAllFail "e" ["a", "b", "c"] 2).found = none :=
  C4_two_way_return envAllFail "e" ["a", "b", "c"] 2 (by intro p _; rfl)

/-- C5 counterexample: the claim says a final URL with a checkpoint
marker classifies as `Blocked`, a distinct outcome from the default
`Failure`.  The code's classification (lines 122-133) is two-valued:
the checkpoint URL and the marker-free rejected-credentials URL
produce the identical result `False`, although the spec's classifier
assigns them the distinct outcomes `Blocked` and `Failure`. -/
theorem C5_counterexample :
    classify "https://www.facebook.com/checkpoint/?next" "" =
      classify "https://www.facebook.com/login.php?login_attempt=1" "" ∧
    classifyAttemptResultSpec "https://www.facebook.com/checkpoint/?next" "" =
      AttemptResult.Blocked ∧
    classifyAttemptResultSpec
        "https://www.facebook.com/login.php?login_attempt=1" "" =
      AttemptResult.Failure := ⟨rfl, rfl, rfl⟩

/-- C5 (amended): the code applies the claimed checks in exactly the
claimed first-match-wins order, but collapses `Blocked` and `Failure`
to the single value `False`: for every URL and body, the code's
two-valued classification returns `True` exactly when the spec's
ordered three-way classifier returns `Success` — in particular a URL
carrying a login-error or checkpoint marker is never classified
successful, even if the URL or body also matches a success marker. -/
theorem C5_first_match_order (url body : String) :
    classify url body =
      decide (classifyAttemptResultSpec url body = AttemptResult.Success) := by
  unfold classify classifyAttemptResultSpec
  by_cases h1 : (strContains url "login_error" ||
      strContains url "checkpoint") = true
  · simp [h1]
  · by_cases h2 : (strContains url "facebook.com/home" ||
        strContains url "facebook.com/?sk=welcome") = true
    · simp [h1, h2]
    · by_cases h3 : (strContains body "Welcome to Facebook" ||
          strContains (pyLower body) "news feed") = true
      · simp [h1, h2, h3]
      · simp [h1, h2, h3]

/-- C6: with `max_attempts = 0` the budget check never fires (Python
truthiness at line 159): the sweep returns the first successful
candidate, attempts exactly the candidates up to and including the
first success, counts exactly those attempts, and when no candidate
succeeds it attempts every candidate exactly once. -/
theorem C6_unlimited_budget (env : String → HttpOutcome) (email : String)
    (ps : List String) :
    (test_credentials env email ps 0).found = ps.find? (okOf env) ∧
    (test_credentials env email ps 0).tried =
      ps.take (ps.findIdx (okOf env) + 1) ∧
    (test_credentials env email ps 0).attempts =
      (test_credentials env email ps 0).tried.length ∧
    (ps.find? (okOf env) = none → (test_credentials env email ps 0).tried = ps) := by
  simp only [test_credentials]
  obtain ⟨h1, h2, h3⟩ := sweepLoop_zero env email ps 0
  refine ⟨h1, h2, by simpa using h3, ?_⟩
  intro hnone
  rw [h2, findIdx_eq_length_of_find?_none (okOf env) ps hnone]
  exact List.take_of_length_le (by omega)

/-- Witness for C6: three failing candidates, unlimited budget — all
three attempted, none found. -/
theorem C6_unlimited_budget_witness :
    (test_credentials envAllFail "e" ["a", "b", "c"] 0).found = none ∧
    (test_credentials envAllFail "e" ["a", "b", "c"] 0).tried =
      ["a", "b", "c"] := by
  have h := C6_unlimited_budget envAllFail "e" ["a", "b", "c"]
  refine ⟨?_, h.2.2.2 (by rfl)⟩
  rw [h.1]
  rfl

/-- C7: a transport error does not abort the sweep — the attempt
returns `False` (lines 135-137), the loop continues and the attempt is
counted: if the first two candidates hit transport errors, the third
completes rejected and the fourth completes successfully, the sweep
reports the fourth candidate with the attempts counter at 4, having
attempted exactly the four candidates in order. -/
theorem C7_transport_resilience (env : String → HttpOutcome)
    (email : String) (p1 p2 p3 p4 : String) (rest : List String) (k : Int)
    (h1 : env p1 = HttpOutcome.transportError)
    (h2 : env p2 = HttpOutcome.transportError)
    (h3 : ∃ u b, env p3 = HttpOutcome.completed u b ∧ classify u b = false)
    (h4 : ∃ u b, env p4 = HttpOutcome.completed u b ∧ classify u b = true)
    (hk : k = 0 ∨ 4 ≤ k) :
    (test_credentials env email (p1 :: p2 :: p3 :: p4 :: rest) k).found =
      some p4 ∧
    (test_credentials env email (p1 :: p2 :: p3 :: p4 :: rest) k).attempts =
      4 ∧
    (test_credentials env email (p1 :: p2 :: p3 :: p4 :: rest) k).tried =
      [p1, p2, p3, p4] := by
  have o1 : okOf env p1 = false := by simp [okOf, h1, attempt_login]
  have o2 : okOf env p2 = false := by simp [okOf, h2, attempt_login]
  have o3 : okOf env p3 = false := by
    obtain ⟨u, b, he, hc⟩ := h3
    simp [okOf, he, attempt_login, hc]
  have o4 : okOf env p4 = true := by
    obtain ⟨u, b, he, hc⟩ := h4
    simp [okOf, he, attempt_login, hc]
  have hfind : (p1 :: p2 :: p3 :: p4 :: rest).find? (okOf env) = some p4 := by
    simp [List.find?_cons, o1, o2, o3, o4]
  have hidx : (p1 :: p2 :: p3 :: p4 :: rest).findIdx (okOf env) = 3 := by
    simp [List.findIdx_cons, o1, o2, o3, o4]
  have hbud : k = 0 ∨
      (((0 : Nat) : Int) +
        ((p1 :: p2 :: p3 :: p4 :: rest).findIdx (okOf env) : Int) + 1 ≤ k) := by
    rcases hk with h | h
    · exact Or.inl h
    · right; rw [hidx]; push_cast; omega
  obtain ⟨hf, ht, ha⟩ :=
    sweepLoop_success env email k (p1 :: p2 :: p3 :: p4 :: rest) 0 p4 hfind hbud
  refine ⟨hf, ?_, ?_⟩
  · rw [show (test_credentials env email (p1 :: p2 :: p3 :: p4 :: rest) k).attempts
      = _ from ha, hidx]
  · rw [show (test_credentials env email (p1 :: p2 :: p3 :: p4 :: rest) k).tried
      = _ from ht, hidx]
    rfl

/-- Witness for C7: the concrete transport-resilience scenario. -/
theorem C7_transport_resilience_witness :
    (test_credentials envTransport "e" ["a", "b", "c", "d"] 0).found =
      some "d" ∧
    (test_credentials envTransport "e" ["a", "b", "c", "d"] 0).attempts = 4 :=
  have h := C7_transport_resilience envTransport "e" "a" "b" "c" "d" [] 0
    rfl rfl ⟨failUrl, "", rfl, rfl⟩ ⟨successUrl, "", rfl, rfl⟩ (Or.inl rfl)
  ⟨h.1, h.2.1⟩

/-- C8: an empty candidate sequence terminates immediately with no
password found, an attempts counter of zero, no candidate passed to
`attempt_login` and no HTTP request issued. -/
theorem C8_empty_list (env : String → HttpOutcome) (email : String)
    (k : Int) :
    test_credentials env email [] k =
      { found := none, attempts := 0, tried := [], requests := [] } := rfl

/-- C9: the session built by `setup_session` retries with a total bound
of 3, exactly on the transient status codes 429, 500, 502, 503, 504,
with connect/read retry counts left at their default (falling back to
the total bound, so low-level transport failures are retried), with
exponentially doubling backoff, and the login POST follows redirects
capped at 1 hop (`max_redirects = 1` with `allow_redirects=True`). -/
theorem C9_session_config :
    session_config.retry.total = 3 ∧
    session_config.retry.status_forcelist = [429, 500, 502, 503, 504] ∧
    session_config.retry.connect = none ∧
    session_config.retry.read = none ∧
    session_config.retry.backoff_factor = 1 ∧
    (∀ n : Nat, backoff_time (n + 2) = 2 * backoff_time (n + 1)) ∧
    session_config.max_redirects = 1 ∧
    attempt_login_allow_redirects = true := by
  refine ⟨rfl, rfl, rfl, rfl, rfl, ?_, rfl, rfl⟩
  intro n
  simp [backoff_time, retry_strategy, Nat.add_sub_cancel]
  ring

/-- C10: during a sweep, the issued requests are exactly one login POST
per attempted candidate, in order — no GET (no login-page fetch, hence
no pre-attempt token extraction) ever appears in the request trace. -/
theorem C10_one_post_per_attempt (env : String → HttpOutcome)
    (email : String) (ps : List String) (k : Int) :
    (test_credentials env email ps k).requests =
      (test_credentials env email ps k).tried.map
        (fun p => HttpRequest.post login_url email p) ∧
    ∀ u : String,
      HttpRequest.get u ∉ (test_credentials env email ps k).requests := by
  have h := sweepLoop_requests env email k ps 0
  refine ⟨h, ?_⟩
  intro u hu
  rw [show (test_credentials env email ps k).requests = _ from h] at hu
  obtain ⟨p, _, hp⟩ := List.mem_map.mp hu
  simp at hp

/-- Witness for C10: two failing candidates issue exactly their two
login POSTs, and the login-page GET is not among the requests. -/
theorem C10_one_post_per_attempt_witness :
    (test_credentials envAllFail "e" ["a", "b"] 0).requests =
      [HttpRequest.post login_url "e" "a", HttpRequest.post login_url "e" "b"] ∧
    HttpRequest.get login_page_url ∉
      (test_credentials envAllFail "e" ["a", "b"] 0).requests := by
  have h := C10_one_post_per_attempt envAllFail "e" ["a", "b"] 0
  refine ⟨?_, h.2 login_page_url⟩
  rw [h.1]
  rfl
